import Mathlib

/-
Verification of the access-control and identity subsystem of the
pakatoi-mvp repository: the Express authentication middleware
(src/middleware/auth.ts), the admin gate (adminMiddleware), the
TypeORM User/Role/Permission entities with their query and mutation
methods, the two deleteUser implementations, the serializers that
strip credential fields, and the bcrypt pre-save hook.

All definitions below are shallow embeddings translated from the
TypeScript source.  External collaborators (jsonwebtoken.verify, the
database, bcrypt.hash) are passed in as explicit function parameters.
-/

/-! ## Token extraction

JavaScript String.prototype.replace with a string pattern replaces the
FIRST occurrence only; the middleware computes
req.header(.Authorization.)?.replace(.Bearer ., .....).  We model that
replace-first-with-empty operation on character lists. -/

/-- Remove the first occurrence of the pattern from the list (JS
String.replace with a string pattern and empty replacement). -/
def stripFirstList (pat : List Char) : List Char → List Char
  | [] => []
  | c :: cs =>
      if pat = (c :: cs).take pat.length then (c :: cs).drop pat.length
      else c :: stripFirstList pat cs

/-- header.replace with the Bearer prefix pattern and empty replacement. -/
def stripBearer (s : String) : String :=
  String.mk (stripFirstList "Bearer ".data s.data)

/-! ## Data carried by the Express middleware (src/middleware/auth.ts) -/

/-- Decoded JWT payload; the middleware reads only its id field. -/
structure TokenClaims where
  id : String
deriving DecidableEq

/-- User record returned by UserService.getUserById in the Express and
Mongoose stack (src/models/User.ts), restricted to the fields the
middleware reads. -/
structure MongoUser where
  id : String
  email : String
  username : String
  password : String
  firstName : String
  lastName : String
  role : String
  isVerified : Bool
  isActive : Bool
deriving DecidableEq

/-- The identity the middleware attaches to the request (req.user). -/
structure ReqUser where
  id : String
  email : String
  role : String
deriving DecidableEq

/-- Outcome of a middleware run: either an HTTP response was written, or
next() was called with an identity attached. -/
inductive AuthResult where
  | respond (status : Nat) (message : String)
  | next (user : ReqUser)
deriving DecidableEq

/-- Run of authMiddleware together with the list of ids passed to the
store lookup userService.getUserById, in call order. -/
structure AuthTrace where
  result : AuthResult
  storeLookups : List String
deriving DecidableEq

/-- authMiddleware from src/middleware/auth.ts.  The header value, the
JWT_SECRET environment variable, jwt.verify and the store lookup are
explicit parameters.  A missing secret raises inside the try block and
is caught by the catch clause, which answers 401 with message
Invalid token. ; jwt.verify failures take the same catch path. -/
def authMiddleware (header : Option String) (jwtSecret : Option String)
    (verify : String → String → Except String TokenClaims)
    (getUserById : String → Option MongoUser) : AuthTrace :=
  match header.map stripBearer with
  | none =>
      { result := .respond 401 "Access denied. No token provided.", storeLookups := [] }
  | some token =>
      if token = "" then
        { result := .respond 401 "Access denied. No token provided.", storeLookups := [] }
      else
        match jwtSecret with
        | none => { result := .respond 401 "Invalid token.", storeLookups := [] }
        | some secret =>
            match verify token secret with
            | .error _ => { result := .respond 401 "Invalid token.", storeLookups := [] }
            | .ok decoded =>
                match getUserById decoded.id with
                | none =>
                    { result := .respond 401 "Invalid token or user not found."
                      storeLookups := [decoded.id] }
                | some user =>
                    if user.isActive then
                      { result := .next { id := user.id, email := user.email, role := user.role }
                        storeLookups := [decoded.id] }
                    else
                      { result := .respond 401 "Invalid token or user not found."
                        storeLookups := [decoded.id] }

/-- Outcome of the admin gate: an HTTP response, or next(). -/
inductive AdminResult where
  | respond (status : Nat) (message : String)
  | next
deriving DecidableEq

/-- adminMiddleware from src/middleware/auth.ts: deny 401 when no
identity is attached, deny 403 unless the role is admin or moderator,
otherwise call next(). -/
def adminMiddleware : Option ReqUser → AdminResult
  | none => .respond 401 "Authentication required."
  | some user =>
      if user.role != "admin" && user.role != "moderator" then
        .respond 403 "Access denied. Admin privileges required."
      else
        .next

/-! ## TypeORM entities (NestJS stack): Permission, Role, User -/

/-- permission.entity: id, unique name, description. -/
structure Permission where
  id : String
  name : String
  description : String
deriving DecidableEq

/-- role.entity with its eagerly loaded permission collection.  The
users inverse relation is omitted: it is not eagerly loaded and no
method under verification reads it. -/
structure RoleEntity where
  id : String
  name : String
  isActive : Bool
  priority : Int
  permissions : List Permission
deriving DecidableEq

/-- Role.hasPermission: some permission in the collection has the given
name (===, exact string comparison). -/
def RoleEntity.hasPermission (r : RoleEntity) (permissionName : String) : Bool :=
  r.permissions.any fun permission => permission.name == permissionName

/-- user.entity (TypeORM) with its scalar columns and eagerly loaded
roles.  Dates are modelled as strings; nullable columns as Option. -/
structure UserEntity where
  id : String
  email : String
  firstName : String
  lastName : String
  password : String
  phone : Option String
  avatar : Option String
  isVerified : Bool
  isActive : Bool
  lastLoginAt : Option String
  verificationToken : Option String
  resetPasswordToken : Option String
  resetPasswordExpires : Option String
  roles : List RoleEntity
  createdAt : String
  updatedAt : String
deriving DecidableEq

/-- User.hasRole: some attached role has the given name (===). -/
def UserEntity.hasRole (u : UserEntity) (roleName : String) : Bool :=
  u.roles.any fun role => role.name == roleName

/-- User.hasPermission: some attached role carries a permission with
the given name; the source applies no isActive filter on roles. -/
def UserEntity.hasPermission (u : UserEntity) (permissionName : String) : Bool :=
  u.roles.any fun role =>
    role.permissions.any fun permission => permission.name == permissionName

/-- Modelled from the spec wording, for comparison with the source
method: the effective permission set of an identity is the union of the
permission names of all its ACTIVE roles. -/
def effectivePermissionNames (u : UserEntity) : List String :=
  (u.roles.filter fun role => role.isActive).flatMap fun role =>
    role.permissions.map fun permission => permission.name

/-! ## Role mutation state (addPermission / removePermission)

In the TypeScript entity the permissions field may be undefined before
the relation is loaded; both mutators guard on that, so the mutable
state carries Option (List Permission), none meaning undefined.  Note
an empty array is truthy in JavaScript, so the removePermission guard
only skips the undefined case. -/

/-- A role record as seen by the two mutators. -/
structure RoleRecord where
  id : String
  name : String
  isActive : Bool
  priority : Int
  permissions : Option (List Permission)
deriving DecidableEq

/-- Role.addPermission: initialise the collection to the empty array if
undefined, then push unless some element already has the same id. -/
def RoleRecord.addPermission (r : RoleRecord) (permission : Permission) : RoleRecord :=
  let ps := r.permissions.getD []
  if (ps.find? fun p => p.id == permission.id).isSome then
    { r with permissions := some ps }
  else
    { r with permissions := some (ps ++ [permission]) }

/-- Role.removePermission: if the collection is defined, keep the
elements whose id differs. -/
def RoleRecord.removePermission (r : RoleRecord) (permissionId : String) : RoleRecord :=
  match r.permissions with
  | none => r
  | some ps => { r with permissions := some (ps.filter fun p => p.id != permissionId) }

/-! ## The two deleteUser implementations -/

/-- UserService.deleteUser of the Express and Mongoose stack:
User.findByIdAndUpdate(id, set isActive false).  The store is the list
of user documents; the Bool is the result not-null check. -/
def mongoDeleteUser (store : List MongoUser) (id : String) :
    List MongoUser × Bool :=
  ((store.map fun u => if u.id == id then { u with isActive := false } else u),
   store.any fun u => u.id == id)

/-- User entity of the NestJS stack (user.entity with passwordHash). -/
structure NestUser where
  id : String
  email : String
  passwordHash : String
  name : String
deriving DecidableEq

/-- Repository.findOne by id (used by the NestJS UserService). -/
def nestFindById (store : List NestUser) (id : String) : Option NestUser :=
  store.find? fun u => u.id == id

/-- UserService.deleteUser of the NestJS stack: getUserById throws
NotFound when absent, then repository.remove deletes the entity. -/
def nestDeleteUser (store : List NestUser) (id : String) :
    Except String (List NestUser) :=
  match nestFindById store id with
  | none => .error "User not found"
  | some _ => .ok (store.filter fun u => u.id != id)

/-! ## Serializers that strip credential fields -/

/-- JSON-ish values, enough to model serialized user objects. -/
inductive JsVal where
  | str (s : String)
  | boolean (b : Bool)
  | num (n : Int)
  | null
  | arr (elems : List JsVal)
  | obj (fields : List (String × JsVal))

/-- Serialize an optional string column. -/
def optStr : Option String → JsVal
  | none => JsVal.null
  | some s => JsVal.str s

/-- The object form of a Permission entity. -/
def Permission.fieldList (p : Permission) : List (String × JsVal) :=
  [("id", JsVal.str p.id), ("name", JsVal.str p.name),
   ("description", JsVal.str p.description)]

/-- The object form of a Role entity. -/
def RoleEntity.fieldList (r : RoleEntity) : List (String × JsVal) :=
  [("id", JsVal.str r.id), ("name", JsVal.str r.name),
   ("isActive", JsVal.boolean r.isActive), ("priority", JsVal.num r.priority),
   ("permissions", JsVal.arr (r.permissions.map fun p => JsVal.obj p.fieldList))]

/-- The own enumerable properties of a TypeORM User entity instance, in
declaration order. -/
def UserEntity.fieldList (u : UserEntity) : List (String × JsVal) :=
  [("id", JsVal.str u.id), ("email", JsVal.str u.email),
   ("firstName", JsVal.str u.firstName), ("lastName", JsVal.str u.lastName),
   ("password", JsVal.str u.password), ("phone", optStr u.phone),
   ("avatar", optStr u.avatar), ("isVerified", JsVal.boolean u.isVerified),
   ("isActive", JsVal.boolean u.isActive), ("lastLoginAt", optStr u.lastLoginAt),
   ("verificationToken", optStr u.verificationToken),
   ("resetPasswordToken", optStr u.resetPasswordToken),
   ("resetPasswordExpires", optStr u.resetPasswordExpires),
   ("roles", JsVal.arr (u.roles.map fun r => JsVal.obj r.fieldList)),
   ("createdAt", JsVal.str u.createdAt), ("updatedAt", JsVal.str u.updatedAt)]

/-- User.toJSON of the TypeORM entity: object destructuring pulls out
password, verificationToken and resetPasswordToken and returns the rest. -/
def UserEntity.toJSON (u : UserEntity) : List (String × JsVal) :=
  u.fieldList.filter fun kv =>
    kv.1 != "password" && kv.1 != "verificationToken" && kv.1 != "resetPasswordToken"

/-- The Mongoose schema toJSON transform: delete ret.password and
return ret.  It operates on whatever object form the document has. -/
def mongooseToJSONTransform (ret : List (String × JsVal)) : List (String × JsVal) :=
  ret.filter fun kv => kv.1 != "password"

/-- UserController.sanitizeUser of the NestJS stack: destructure
passwordHash away from an arbitrary user object and return the rest. -/
def sanitizeUser (user : List (String × JsVal)) : List (String × JsVal) :=
  user.filter fun kv => kv.1 != "passwordHash"

/-! ## The bcrypt pre-insert / pre-update hook -/

/-- JavaScript String.prototype.startsWith: the string begins with the
given search string. -/
def jsStartsWith (s search : String) : Bool :=
  s.data.take search.data.length == search.data

/-- User.hashPassword hook of the TypeORM entity: hash unless the field
is falsy (empty) or already starts with the bcrypt 2b prefix.
bcrypt.hash is an explicit parameter. -/
def hashPasswordHook (bcryptHash : String → String) (password : String) : String :=
  if password != "" && !(jsStartsWith password "$2b$") then bcryptHash password
  else password

/-! ## Concrete sample records used to instantiate the theorems -/

/-- A deactivated Mongoose user record. -/
def sampleInactiveUser : MongoUser :=
  { id := "u1", email := "a@example.com", username := "alice", password := "h",
    firstName := "A", lastName := "L", role := "user",
    isVerified := true, isActive := false }

/-- An active Mongoose user record. -/
def sampleActiveUser : MongoUser :=
  { id := "u2", email := "b@example.com", username := "bob", password := "h2",
    firstName := "B", lastName := "M", role := "user",
    isVerified := true, isActive := true }

/-- A TypeORM user entity with every scalar field fixed and no roles. -/
def baseUserEntity : UserEntity :=
  { id := "u1", email := "a@example.com", firstName := "A", lastName := "L",
    password := "h", phone := none, avatar := none, isVerified := true,
    isActive := true, lastLoginAt := none, verificationToken := none,
    resetPasswordToken := none, resetPasswordExpires := none, roles := [],
    createdAt := "2024-01-01", updatedAt := "2024-01-01" }

/-- A user whose single role is deactivated yet carries the permission
named users.delete. -/
def inactiveRolePermUser : UserEntity :=
  { baseUserEntity with
    roles := [{ id := "r1", name := "ops", isActive := false, priority := 1,
                permissions := [{ id := "p1", name := "users.delete",
                                  description := "d" }] }] }

/-- A user whose only role is named Admin with a capital A. -/
def adminCapitalUser : UserEntity :=
  { baseUserEntity with
    roles := [{ id := "r2", name := "Admin", isActive := true, priority := 9,
                permissions := [] }] }

/-- A sample permission. -/
def permA : Permission := { id := "p1", name := "users.read", description := "d" }

/-- A role record already holding permA. -/
def roleWithPermA : RoleRecord :=
  { id := "r1", name := "ops", isActive := true, priority := 1,
    permissions := some [permA] }

/-- A NestJS user record. -/
def nestSampleUser : NestUser :=
  { id := "u1", email := "a@example.com", passwordHash := "h", name := "A" }

/-! ## Theorems -/

/-- C1: for every identity with isActive = false, authMiddleware answers
401 even when the presented bearer token is structurally valid and
correctly signed, and never attaches an identity to the request. -/
theorem c1_inactive_identity_rejected
    (header jwtSecret : Option String)
    (verify : String → String → Except String TokenClaims)
    (getUserById : String → Option MongoUser)
    (token secret : String) (claims : TokenClaims) (user : MongoUser)
    (htok : header.map stripBearer = some token) (hne : token ≠ "")
    (hsec : jwtSecret = some secret)
    (hver : verify token secret = Except.ok claims)
    (hstore : getUserById claims.id = some user)
    (hinactive : user.isActive = false) :
    (authMiddleware header jwtSecret verify getUserById).result
      = AuthResult.respond 401 "Invalid token or user not found."
    ∧ ∀ ru, (authMiddleware header jwtSecret verify getUserById).result
        ≠ AuthResult.next ru := by
  simp [authMiddleware, htok, hne, hsec, hver, hstore, hinactive]

/-- Witness for C1 at a concrete request and store. -/
theorem c1_witness :
    (authMiddleware (some "Bearer t") (some "s")
        (fun _ _ => Except.ok { id := "u1" })
        (fun i => if i == "u1" then some sampleInactiveUser else none)).result
      = AuthResult.respond 401 "Invalid token or user not found." :=
  (c1_inactive_identity_rejected (some "Bearer t") (some "s")
    (fun _ _ => Except.ok { id := "u1" })
    (fun i => if i == "u1" then some sampleInactiveUser else none)
    "t" "s" { id := "u1" } sampleInactiveUser
    (by decide) (by decide) rfl rfl (by decide) rfl).1

/-- C3: adminMiddleware decides by exhaustive cases: no identity gives
401, a role outside the two-name allow-list gives 403, and exactly the
roles admin and moderator are allowed through to next. -/
theorem c3_adminMiddleware_cases :
    adminMiddleware none = AdminResult.respond 401 "Authentication required."
    ∧ (∀ u : ReqUser, u.role ≠ "admin" → u.role ≠ "moderator" →
        adminMiddleware (some u)
          = AdminResult.respond 403 "Access denied. Admin privileges required.")
    ∧ (∀ u : ReqUser, u.role = "admin" ∨ u.role = "moderator" →
        adminMiddleware (some u) = AdminResult.next) := by
  refine ⟨rfl, ?_, ?_⟩
  · intro u h1 h2
    simp [adminMiddleware, h1, h2]
  · intro u h
    rcases h with h | h <;> simp [adminMiddleware, h]

/-- Witness for C3: a plain user is denied 403, an admin passes. -/
theorem c3_witness :
    adminMiddleware (some { id := "u1", email := "a@example.com", role := "user" })
      = AdminResult.respond 403 "Access denied. Admin privileges required."
    ∧ adminMiddleware (some { id := "u2", email := "b@example.com", role := "admin" })
      = AdminResult.next :=
  ⟨c3_adminMiddleware_cases.2.1 _ (by decide) (by decide),
   c3_adminMiddleware_cases.2.2 _ (Or.inl rfl)⟩

/-- C4: User.hasRole is an exact, case-sensitive name match over the
attached roles; in particular hasRole admin is false for a user whose
only role is named Admin. -/
theorem c4_hasRole_exact_match :
    (∀ (u : UserEntity) (n : String),
        u.hasRole n = true ↔ ∃ r ∈ u.roles, r.name = n)
    ∧ adminCapitalUser.hasRole "admin" = false := by
  constructor
  · intro u n
    simp [UserEntity.hasRole, List.any_eq_true]
  · decide

/-- Replacing the permissions field by its own current value is the
identity on role records. -/
theorem roleRecord_set_permissions_self (r : RoleRecord) (ps : List Permission)
    (h : r.permissions = some ps) :
    ({ r with permissions := some ps } : RoleRecord) = r := by
  cases r
  simp_all

/-- addPermission is a no-op when some element already has the id. -/
theorem addPermission_no_op_of_id_mem (r : RoleRecord) (p : Permission)
    (ps : List Permission) (hps : r.permissions = some ps)
    (hmem : ∃ q ∈ ps, q.id = p.id) :
    r.addPermission p = r := by
  obtain ⟨q, hq, hid⟩ := hmem
  have hfind : (ps.find? fun x => x.id == p.id).isSome = true := by
    rw [List.find?_isSome]
    exact ⟨q, hq, by simp [hid]⟩
  cases r with
  | mk i n a pr perms =>
    cases hps
    simp [RoleRecord.addPermission, hfind]

/-- removePermission is a no-op when no element has the id. -/
theorem removePermission_no_op_of_absent (r : RoleRecord) (pid : String)
    (ps : List Permission) (hps : r.permissions = some ps)
    (habs : ∀ q ∈ ps, q.id ≠ pid) :
    r.removePermission pid = r := by
  have hfilter : ps.filter (fun p => p.id != pid) = ps := by
    rw [List.filter_eq_self]
    intro a ha
    simpa using habs a ha
  cases r with
  | mk i n a pr perms =>
    cases hps
    simp [RoleRecord.removePermission, hfilter]

/-- removePermission is a no-op on an undefined collection. -/
theorem removePermission_no_op_of_undefined (r : RoleRecord) (pid : String)
    (hps : r.permissions = none) :
    r.removePermission pid = r := by
  cases r with
  | mk i n a pr perms =>
    cases hps
    rfl

/-- After addPermission, the collection is defined and contains the id. -/
theorem addPermission_id_mem (r : RoleRecord) (p : Permission) :
    ∃ ps, (r.addPermission p).permissions = some ps ∧ ∃ q ∈ ps, q.id = p.id := by
  by_cases h : ((r.permissions.getD []).find? fun q => q.id == p.id).isSome = true
  · obtain ⟨q, hq⟩ := Option.isSome_iff_exists.mp h
    exact ⟨r.permissions.getD [], by simp [RoleRecord.addPermission, h],
      q, List.mem_of_find?_eq_some hq, by simpa using List.find?_some hq⟩
  · exact ⟨r.permissions.getD [] ++ [p], by simp [RoleRecord.addPermission, h],
      p, by simp, rfl⟩

/-- addPermission applied twice equals addPermission applied once. -/
theorem addPermission_idem (r : RoleRecord) (p : Permission) :
    (r.addPermission p).addPermission p = r.addPermission p := by
  obtain ⟨ps, hps, hmem⟩ := addPermission_id_mem r p
  exact addPermission_no_op_of_id_mem _ p ps hps hmem

/-- removePermission applied twice equals removePermission once. -/
theorem removePermission_idem (r : RoleRecord) (pid : String) :
    (r.removePermission pid).removePermission pid = r.removePermission pid := by
  cases hp : r.permissions with
  | none =>
    rw [removePermission_no_op_of_undefined r pid hp,
        removePermission_no_op_of_undefined r pid hp]
  | some ps =>
    have h1 : r.removePermission pid
        = { r with permissions := some (ps.filter fun p => p.id != pid) } := by
      simp [RoleRecord.removePermission, hp]
    rw [h1]
    refine removePermission_no_op_of_absent _ pid
      (ps.filter fun p => p.id != pid) rfl ?_
    intro q hq
    simpa using List.of_mem_filter hq

/-- C2 counterexample: a user whose only role is deactivated but grants
users.delete.  User.hasPermission returns true, yet the spec-modelled
effective permission set (union over ACTIVE roles only) does not
contain the name, so the claimed iff fails at this input. -/
theorem c2_counterexample :
    inactiveRolePermUser.hasPermission "users.delete" = true
    ∧ "users.delete" ∉ effectivePermissionNames inactiveRolePermUser := by
  decide

/-- C2 (amended): User.hasPermission is true iff some permission of
that name lies on some attached role, with no filter on the role's
isActive flag; permissions carried only by deactivated roles do grant
the capability. -/
theorem c2_amended_hasPermission_ignores_role_activity
    (u : UserEntity) (n : String) :
    u.hasPermission n = true
      ↔ ∃ r ∈ u.roles, ∃ p ∈ r.permissions, p.name = n := by
  simp [UserEntity.hasPermission, List.any_eq_true]

/-- C6 counterexample: with JWT_SECRET absent and a bearer token
presented, authMiddleware answers that very request with a 401
response; nothing aborts startup. -/
theorem c6_counterexample :
    (authMiddleware (some "Bearer tok") none
        (fun _ _ => Except.error "e") (fun _ => none)).result
      = AuthResult.respond 401 "Invalid token." := by
  decide

/-- C6 (amended): a missing JWT_SECRET is handled per request: for
every request presenting a nonempty token, the throw inside the try
block is caught and the request is answered 401 with message
Invalid token. ; no store lookup happens and no identity is attached.
There is no startup-time secret check in the source. -/
theorem c6_amended_missing_secret_per_request
    (header : Option String)
    (verify : String → String → Except String TokenClaims)
    (getUserById : String → Option MongoUser)
    (token : String)
    (htok : header.map stripBearer = some token) (hne : token ≠ "") :
    authMiddleware header none verify getUserById
      = { result := AuthResult.respond 401 "Invalid token.", storeLookups := [] } := by
  simp [authMiddleware, htok, hne]

/-- Witness for the amended C6 at a concrete request. -/
theorem c6_amended_witness :
    authMiddleware (some "Bearer tok") none
        (fun _ _ => Except.ok { id := "u1" })
        (fun i => if i == "u1" then some sampleActiveUser else none)
      = { result := AuthResult.respond 401 "Invalid token.", storeLookups := [] } :=
  c6_amended_missing_secret_per_request (some "Bearer tok")
    (fun _ _ => Except.ok { id := "u1" })
    (fun i => if i == "u1" then some sampleActiveUser else none)
    "tok" (by decide) (by decide)

/-- C7: when the Authorization header yields no token, authMiddleware
answers 401 No token provided, performs no store lookup, and its entire
outcome is identical under any two stores. -/
theorem c7_no_token_store_independent
    (header jwtSecret : Option String)
    (verify : String → String → Except String TokenClaims)
    (h : header.map stripBearer = none ∨ header.map stripBearer = some "") :
    ∀ store1 store2 : String → Option MongoUser,
      authMiddleware header jwtSecret verify store1
        = authMiddleware header jwtSecret verify store2
      ∧ (authMiddleware header jwtSecret verify store1).result
          = AuthResult.respond 401 "Access denied. No token provided."
      ∧ (authMiddleware header jwtSecret verify store1).storeLookups = [] := by
  intro store1 store2
  rcases h with h | h <;> simp [authMiddleware, h]

/-- Witness for C7: a request without an Authorization header gets the
same 401 under an empty store and under a store holding an active
admin, with no lookup recorded. -/
theorem c7_witness :
    authMiddleware none (some "s") (fun _ _ => Except.ok { id := "u2" })
        (fun _ => none)
      = authMiddleware none (some "s") (fun _ _ => Except.ok { id := "u2" })
        (fun _ => some sampleActiveUser)
    ∧ (authMiddleware none (some "s") (fun _ _ => Except.ok { id := "u2" })
        (fun _ => none)).result
        = AuthResult.respond 401 "Access denied. No token provided."
    ∧ (authMiddleware none (some "s") (fun _ _ => Except.ok { id := "u2" })
        (fun _ => none)).storeLookups = [] :=
  c7_no_token_store_independent none (some "s")
    (fun _ _ => Except.ok { id := "u2" }) (Or.inl rfl)
    (fun _ => none) (fun _ => some sampleActiveUser)

/-- C5: Role.addPermission and Role.removePermission are idempotent:
adding a permission whose id is already present leaves the record
unchanged, removing an absent id leaves the record unchanged (both when
the collection holds no such id and when it is still undefined), and
each operation applied twice equals the operation applied once. -/
theorem c5_mutation_idempotence :
    (∀ (r : RoleRecord) (p : Permission) (ps : List Permission),
        r.permissions = some ps → (∃ q ∈ ps, q.id = p.id) →
        r.addPermission p = r)
    ∧ (∀ (r : RoleRecord) (pid : String) (ps : List Permission),
        r.permissions = some ps → (∀ q ∈ ps, q.id ≠ pid) →
        r.removePermission pid = r)
    ∧ (∀ (r : RoleRecord) (pid : String),
        r.permissions = none → r.removePermission pid = r)
    ∧ (∀ (r : RoleRecord) (p : Permission),
        (r.addPermission p).addPermission p = r.addPermission p)
    ∧ (∀ (r : RoleRecord) (pid : String),
        (r.removePermission pid).removePermission pid = r.removePermission pid) :=
  ⟨addPermission_no_op_of_id_mem, removePermission_no_op_of_absent,
   removePermission_no_op_of_undefined, addPermission_idem, removePermission_idem⟩

/-- Witness for C5: re-adding the permission already held by the sample
role and removing an id it does not hold are both no-ops. -/
theorem c5_witness :
    roleWithPermA.addPermission permA = roleWithPermA
    ∧ roleWithPermA.removePermission "zz" = roleWithPermA :=
  ⟨c5_mutation_idempotence.1 roleWithPermA permA [permA] rfl
      ⟨permA, by decide, rfl⟩,
   c5_mutation_idempotence.2.1 roleWithPermA "zz" [permA] rfl (by decide)⟩

/-- C8 counterexample: the NestJS UserService.deleteUser hard-deletes:
deleting the only user succeeds with an empty store, and looking the id
up afterwards finds nothing, so the record is not retrievable.  (The
NestJS entity does not even carry an isActive flag to flip.) -/
theorem c8_counterexample :
    nestDeleteUser [nestSampleUser] "u1" = Except.ok []
    ∧ (nestDeleteUser [nestSampleUser] "u1").map
        (fun store1 => nestFindById store1 "u1") = Except.ok none := by
  exact ⟨rfl, rfl⟩

/-- C8 (amended): in the Express and Mongoose stack, deleteUser is a
soft delete: for an existing id the update is reported found, the
record reappears with isActive set to false and every other field
unchanged, the store keeps its length, and records with other ids are
untouched.  The parallel NestJS implementation instead hard-deletes via
repository.remove. -/
theorem c8_amended_mongoose_soft_delete
    (store : List MongoUser) (id : String) (u : MongoUser)
    (hmem : u ∈ store) (hid : u.id = id) :
    (mongoDeleteUser store id).2 = true
    ∧ { u with isActive := false } ∈ (mongoDeleteUser store id).1
    ∧ (mongoDeleteUser store id).1.length = store.length
    ∧ ∀ v ∈ store, v.id ≠ id → v ∈ (mongoDeleteUser store id).1 := by
  refine ⟨?_, ?_, ?_, ?_⟩
  · simp only [mongoDeleteUser, List.any_eq_true]
    exact ⟨u, hmem, by simp [hid]⟩
  · simp only [mongoDeleteUser, List.mem_map]
    exact ⟨u, hmem, by simp [hid]⟩
  · simp [mongoDeleteUser]
  · intro v hv hne
    simp only [mongoDeleteUser, List.mem_map]
    exact ⟨v, hv, by simp [hne]⟩

/-- Witness for the amended C8 on a one-element store. -/
theorem c8_amended_witness :
    (mongoDeleteUser [sampleActiveUser] "u2").2 = true
    ∧ { sampleActiveUser with isActive := false }
        ∈ (mongoDeleteUser [sampleActiveUser] "u2").1
    ∧ (mongoDeleteUser [sampleActiveUser] "u2").1.length
        = ([sampleActiveUser] : List MongoUser).length
    ∧ ∀ v ∈ ([sampleActiveUser] : List MongoUser), v.id ≠ "u2" →
        v ∈ (mongoDeleteUser [sampleActiveUser] "u2").1 :=
  c8_amended_mongoose_soft_delete [sampleActiveUser] "u2" sampleActiveUser
    (by decide) rfl

/-- C9: none of the three serializers emits a credential field: the
Mongoose toJSON transform never yields a password key, the TypeORM
User.toJSON never yields password, verificationToken or
resetPasswordToken keys, and sanitizeUser never yields a passwordHash
key, for every input object. -/
theorem c9_serializers_omit_credentials :
    (∀ ret : List (String × JsVal),
        "password" ∉ (mongooseToJSONTransform ret).map Prod.fst)
    ∧ (∀ u : UserEntity,
        "password" ∉ (u.toJSON).map Prod.fst
        ∧ "verificationToken" ∉ (u.toJSON).map Prod.fst
        ∧ "resetPasswordToken" ∉ (u.toJSON).map Prod.fst)
    ∧ (∀ user : List (String × JsVal),
        "passwordHash" ∉ (sanitizeUser user).map Prod.fst) := by
  refine ⟨?_, ?_, ?_⟩
  · intro ret h
    obtain ⟨kv, hkv, hfst⟩ := List.mem_map.mp h
    simp only [mongooseToJSONTransform] at hkv
    have hp := List.of_mem_filter hkv
    rw [hfst] at hp
    simp at hp
  · intro u
    refine ⟨?_, ?_, ?_⟩ <;>
      { intro h
        obtain ⟨kv, hkv, hfst⟩ := List.mem_map.mp h
        simp only [UserEntity.toJSON] at hkv
        have hp := List.of_mem_filter hkv
        rw [hfst] at hp
        simp at hp }
  · intro user h
    obtain ⟨kv, hkv, hfst⟩ := List.mem_map.mp h
    simp only [sanitizeUser] at hkv
    have hp := List.of_mem_filter hkv
    rw [hfst] at hp
    simp at hp

/-- Witness for C9 at concrete objects carrying the credential keys. -/
theorem c9_witness :
    "password" ∉ (mongooseToJSONTransform
        [("password", JsVal.str "x"), ("email", JsVal.str "e")]).map Prod.fst
    ∧ "password" ∉ (baseUserEntity.toJSON).map Prod.fst
    ∧ "passwordHash" ∉ (sanitizeUser
        [("passwordHash", JsVal.str "x"), ("email", JsVal.str "e")]).map Prod.fst :=
  ⟨c9_serializers_omit_credentials.1 _,
   (c9_serializers_omit_credentials.2.1 baseUserEntity).1,
   c9_serializers_omit_credentials.2.2 _⟩

/-- C10: the hashPassword hook leaves any password that already starts
with the bcrypt 2b prefix exactly as supplied, even a raw user-chosen
one, and replaces every other non-empty password by the bcrypt hash of
the input, which differs from the input because real bcrypt output
carries the prefix the input lacks. -/
theorem c10_hashPassword_prefix_guard
    (bcryptHash : String → String) (password : String)
    (hb : ∀ s, jsStartsWith (bcryptHash s) "$2b$" = true) :
    (jsStartsWith password "$2b$" = true →
      hashPasswordHook bcryptHash password = password)
    ∧ (password ≠ "" → jsStartsWith password "$2b$" = false →
      hashPasswordHook bcryptHash password = bcryptHash password
      ∧ hashPasswordHook bcryptHash password ≠ password) := by
  constructor
  · intro hpre
    simp [hashPasswordHook, hpre]
  · intro hne hpre
    have heq : hashPasswordHook bcryptHash password = bcryptHash password := by
      simp [hashPasswordHook, hpre, hne]
    refine ⟨heq, ?_⟩
    intro hcontra
    rw [heq] at hcontra
    have hball := hb password
    rw [hcontra, hpre] at hball
    exact Bool.false_ne_true hball

/-- Witness for C10: with a stand-in bcrypt that always returns a
2b-prefixed digest, a password already carrying the prefix is kept and
an ordinary password is replaced by the digest. -/
theorem c10_witness :
    hashPasswordHook (fun _ => "$2b$12$h") "$2b$pw" = "$2b$pw"
    ∧ hashPasswordHook (fun _ => "$2b$12$h") "secret" = "$2b$12$h" :=
  ⟨(c10_hashPassword_prefix_guard (fun _ => "$2b$12$h") "$2b$pw"
      (fun _ => (by decide : jsStartsWith "$2b$12$h" "$2b$" = true))).1 (by decide),
   ((c10_hashPassword_prefix_guard (fun _ => "$2b$12$h") "secret"
      (fun _ => (by decide : jsStartsWith "$2b$12$h" "$2b$" = true))).2
      (by decide) (by decide)).1⟩
